import Mathlib

/-!
Verification of the execution engine of the multi-agent graph-node system:
the sandboxed variant executor (`action/executor.py`), the plan-graph
fallback/next-node policy (`decision/decision.py`), the context manager
(`core/context_manager.py`) and the human-escalation helper
(`core/human_in_loop.py`), shallowly embedded in Lean.

The executor manipulates Python source text through the `ast` module.  We
embed the fragment of the Python AST that the executor's transforms and the
verified scenarios exercise: constants, names, binary addition, calls with
positional and keyword arguments, assignments, returns and expression
statements.  Evaluation of the wrapped asynchronous unit is embedded as a
deterministic big-step evaluator; awaiting is semantically transparent here
(the evaluator returns completed tool values directly), and wall-clock
timeouts are not modelled.
-/

set_option autoImplicit false

namespace AgentGraph

/-- Runtime values flowing through executed variant code.  `toolErr text`
models an MCP CallToolResult with `isError = True` whose first content
element carries `text`. -/
inductive PyVal where
  | int (n : Int)
  | str (s : String)
  | pyNone
  | toolErr (text : String)
  deriving DecidableEq, Repr

/-- Expressions of the embedded Python fragment. -/
inductive Expr where
  | constInt (n : Int)
  | constStr (s : String)
  | name (x : String)
  | binAdd (a b : Expr)
  | call (f : String) (args : List Expr) (kwargs : List (String × Expr))

/-- Top-level statements of the embedded Python fragment. -/
inductive Stmt where
  | assign (target : String) (e : Expr)
  | ret (e : Expr)
  | exprStmt (e : Expr)

mutual

/-- Number of call expressions in an expression, as walked by
`count_function_calls` (executor.py line 79): every `ast.Call` node in the
tree counts, including calls nested inside arguments. -/
def countCallsExpr : Expr → Nat
  | .constInt _ => 0
  | .constStr _ => 0
  | .name _ => 0
  | .binAdd a b => countCallsExpr a + countCallsExpr b
  | .call _ args kwargs => 1 + countCallsArgs args + countCallsKwargs kwargs

/-- Call count of a positional-argument list. -/
def countCallsArgs : List Expr → Nat
  | [] => 0
  | e :: es => countCallsExpr e + countCallsArgs es

/-- Call count of a keyword-argument list. -/
def countCallsKwargs : List (String × Expr) → Nat
  | [] => 0
  | (_, e) :: es => countCallsExpr e + countCallsKwargs es

end

/-- Call count of a statement. -/
def countCallsStmt : Stmt → Nat
  | .assign _ e => countCallsExpr e
  | .ret e => countCallsExpr e
  | .exprStmt e => countCallsExpr e

/-- The embedding of `count_function_calls` on a parsed module body. -/
def count_function_calls (body : List Stmt) : Nat :=
  (body.map countCallsStmt).sum

mutual

/-- The `KeywordStripper` AST transformer (executor.py lines 24-33): children
are visited first (`generic_visit`), then every keyword argument's value is
appended to the positional argument list in call-site keyword order and the
keyword list is emptied. -/
def keywordStripExpr : Expr → Expr
  | .constInt n => .constInt n
  | .constStr s => .constStr s
  | .name x => .name x
  | .binAdd a b => .binAdd (keywordStripExpr a) (keywordStripExpr b)
  | .call f args kwargs =>
      .call f (keywordStripArgs args ++ keywordStripKwargs kwargs) []

/-- `KeywordStripper` on a positional-argument list. -/
def keywordStripArgs : List Expr → List Expr
  | [] => []
  | e :: es => keywordStripExpr e :: keywordStripArgs es

/-- `KeywordStripper` on a keyword-argument list: names are discarded and the
values are kept in call-site order. -/
def keywordStripKwargs : List (String × Expr) → List Expr
  | [] => []
  | (_, e) :: es => keywordStripExpr e :: keywordStripKwargs es

end

/-- `KeywordStripper` on a statement. -/
def keywordStripStmt : Stmt → Stmt
  | .assign t e => .assign t (keywordStripExpr e)
  | .ret e => .ret (keywordStripExpr e)
  | .exprStmt e => .exprStmt (keywordStripExpr e)

/-- Coercion of one direct argument of a tool call by `IntLiteralTransformer`
(executor.py lines 52-74): a string constant that Python `int` accepts is
replaced by the integer constant.  Python `int` on a string is modelled by
`String.toInt?`. -/
def coerceIntArg (e : Expr) : Expr :=
  match e with
  | .constStr s =>
      match s.toInt? with
      | some n => .constInt n
      | none => .constStr s
  | e => e

mutual

/-- The `IntLiteralTransformer` AST transformer: children first, then for
calls whose callee name is a registered tool, direct string-constant
positional arguments that parse as integers become integer constants. -/
def intLitExpr (toolNames : List String) : Expr → Expr
  | .constInt n => .constInt n
  | .constStr s => .constStr s
  | .name x => .name x
  | .binAdd a b => .binAdd (intLitExpr toolNames a) (intLitExpr toolNames b)
  | .call f args kwargs =>
      let args := intLitArgs toolNames args
      let kwargs := intLitKwargs toolNames kwargs
      if toolNames.contains f then .call f (args.map coerceIntArg) kwargs
      else .call f args kwargs

/-- `IntLiteralTransformer` on a positional-argument list. -/
def intLitArgs (toolNames : List String) : List Expr → List Expr
  | [] => []
  | e :: es => intLitExpr toolNames e :: intLitArgs toolNames es

/-- `IntLiteralTransformer` on a keyword-argument list. -/
def intLitKwargs (toolNames : List String) : List (String × Expr) → List (String × Expr)
  | [] => []
  | (k, e) :: es => (k, intLitExpr toolNames e) :: intLitKwargs toolNames es

end

/-- `IntLiteralTransformer` on a statement. -/
def intLitStmt (toolNames : List String) : Stmt → Stmt
  | .assign t e => .assign t (intLitExpr toolNames e)
  | .ret e => .ret (intLitExpr toolNames e)
  | .exprStmt e => .exprStmt (intLitExpr toolNames e)

/-- Whether the module body contains a top-level return statement
(executor.py line 181). -/
def hasReturn (body : List Stmt) : Bool :=
  body.any fun s => match s with | .ret _ => true | _ => false

/-- Whether the module body contains a top-level assignment to the variable
named result (executor.py lines 182-187). -/
def assignsResult (body : List Stmt) : Bool :=
  body.any fun s => match s with | .assign t _ => t = "result" | _ => false

/-- Implicit result-return synthesis (executor.py lines 188-189): when the
body has no top-level return but assigns to result, a return of that
variable is appended. -/
def synthesizeReturn (body : List Stmt) : List Stmt :=
  if ¬ hasReturn body ∧ assignsResult body then
    body ++ [.ret (.name "result")]
  else body

/-- A tool callable bound into the sandbox: the completed value of the
awaited MCP call.  Tools are modelled as pure functions of their positional
arguments. -/
def ToolFn : Type := List PyVal → PyVal

/-- Mutable state of one sandboxed execution of the wrapped unit: the local
variables of the anonymous async function, the result-holder slot written by
the final-answer sink, and an instrumentation counter of tool invocations
performed so far. -/
structure EvalState where
  locals : List (String × PyVal)
  resultHolder : Option PyVal
  toolCalls : Nat

/-- Exception raised during sandboxed execution, carrying the state at the
raise point (used only for instrumentation). -/
structure EvalExn where
  msg : String
  st : EvalState

/-- Assignment to a local variable (last write wins, insertion order kept). -/
def assocSet (l : List (String × PyVal)) (k : String) (v : PyVal) :
    List (String × PyVal) :=
  match l with
  | [] => [(k, v)]
  | (k0, v0) :: rest =>
      if k0 = k then (k, v) :: rest else (k0, v0) :: assocSet rest k v

mutual

/-- Big-step evaluation of an expression inside the sandbox.  Name lookup
reaches the function locals; a name that resolves neither to a local nor (in
call position) to a bound tool or the final-answer sink raises a NameError,
exactly what calling an unregistered tool name does at run time.  Calling
the final-answer sink performs the `setdefault` write of the result holder
(executor.py line 96). -/
def evalExpr (tools : List (String × ToolFn)) (st : EvalState) :
    Expr → Except EvalExn (PyVal × EvalState)
  | .constInt n => .ok (.int n, st)
  | .constStr s => .ok (.str s, st)
  | .name x =>
      match st.locals.lookup x with
      | some v => .ok (v, st)
      | none =>
          .error ⟨"NameError: name '" ++ x ++ "' is not defined", st⟩
  | .binAdd a b => do
      let (va, st) ← evalExpr tools st a
      let (vb, st) ← evalExpr tools st b
      match va, vb with
      | .int x, .int y => .ok (.int (x + y), st)
      | .str x, .str y => .ok (.str (x ++ y), st)
      | _, _ => .error ⟨"TypeError: unsupported operand type(s) for +", st⟩
  | .call f args _kwargs => do
      let (vs, st) ← evalArgs tools st args
      match tools.lookup f with
      | some fn =>
          .ok (fn vs, { st with toolCalls := st.toolCalls + 1 })
      | none =>
          if f = "final_answer" then
            match vs with
            | [v] =>
                let stored := st.resultHolder.getD v
                .ok (stored, { st with resultHolder := some stored })
            | _ => .error ⟨"TypeError: final_answer takes one argument", st⟩
          else
            .error ⟨"NameError: name '" ++ f ++ "' is not defined", st⟩

/-- Left-to-right evaluation of an argument list. -/
def evalArgs (tools : List (String × ToolFn)) (st : EvalState) :
    List Expr → Except EvalExn (List PyVal × EvalState)
  | [] => .ok ([], st)
  | e :: es => do
      let (v, st) ← evalExpr tools st e
      let (vs, st) ← evalArgs tools st es
      .ok (v :: vs, st)

end

/-- Execution of the statements of the wrapped unit.  A return statement
exits with its value; falling off the end returns Python None (modelled as
`none`). -/
def execStmts (tools : List (String × ToolFn)) (st : EvalState) :
    List Stmt → Except EvalExn (Option PyVal × EvalState)
  | [] => .ok (none, st)
  | .assign x e :: rest => do
      let (v, st) ← evalExpr tools st e
      execStmts tools { st with locals := assocSet st.locals x v } rest
  | .ret e :: _ => do
      let (v, st) ← evalExpr tools st e
      .ok (some v, st)
  | .exprStmt e :: rest => do
      let (_, st) ← evalExpr tools st e
      execStmts tools st rest

/-- Python str.strip on both ends, over the character list (whitespace as
recognised by Char.isWhitespace). -/
def pyStrip (s : String) : String :=
  String.mk (((s.data.dropWhile Char.isWhitespace).reverse.dropWhile
    Char.isWhitespace).reverse)

/-- Python `str` on the values the success path can carry. -/
def pyStr : PyVal → String
  | .int n => toString n
  | .str s => s
  | .pyNone => "None"
  | .toolErr _ => "CallToolResult(isError=True)"

/-- One variant source, as the executor receives it: `blank` is true when the
stripped text is empty (executor.py line 172), `parsed` is the outcome of
`ast.parse` on the text (`none` models a SyntaxError). -/
structure Source where
  blank : Bool
  parsed : Option (List Stmt)

/-- The fixed call-count ceiling MAX_FUNCTIONS (executor.py line 21). -/
def MAX_FUNCTIONS : Nat := 5

/-- Outcome of one iteration of the retry loop of `run_user_code`
(executor.py lines 148-245).  `preExn` is an exception raised before the
wrapped unit ran (SyntaxError from `count_function_calls`, or the two
ValueErrors for empty text and an empty parsed body); `runExn` is an
exception raised during sandboxed execution; `toolError` is a returned value
with the `isError` marker; `fatalTooMany` is the immediate error return of
the call-count guard. -/
inductive Attempt where
  | fatalTooMany (funcCount : Nat)
  | preExn (msg : String)
  | runExn (msg : String) (toolCalls : Nat)
  | toolError (msg : String) (toolCalls : Nat)
  | success (res : String) (toolCalls : Nat)
  deriving DecidableEq, Repr

/-- One iteration of the body of the retry loop of `run_user_code`: the
call-count guard, the emptiness validations, the transform pipeline
(implicit-return synthesis, keyword stripping, integer-literal coercion;
await injection is semantically transparent here), wrapping, execution, and
the `isError` inspection of the returned value. -/
def attemptOnce (code : Source) (tools : List (String × ToolFn)) : Attempt :=
  match code.parsed with
  | none => .preExn "SyntaxError: invalid syntax"
  | some body =>
      let funcCount := count_function_calls body
      if funcCount > MAX_FUNCTIONS then .fatalTooMany funcCount
      else if code.blank then
        .preExn "ValueError: Generated code is empty. Decision module may have failed to generate valid code."
      else if body.isEmpty then
        .preExn "ValueError: Parsed code has no statements. Decision module generated invalid code."
      else
        let body := synthesizeReturn body
        let body := body.map keywordStripStmt
        let toolNames := tools.map Prod.fst
        let body := body.map (intLitStmt toolNames)
        match execStmts tools ⟨[], none, 0⟩ body with
        | .error e => .runExn e.msg e.st.toolCalls
        | .ok (returned, st) =>
            let resultValue :=
              match returned with
              | some .pyNone => st.resultHolder.getD (.str "None")
              | some v => v
              | none => st.resultHolder.getD (.str "None")
            match resultValue with
            | .toolErr text => .toolError (pyStrip text) st.toolCalls
            | v => .success (pyStr v) st.toolCalls

/-- The embedding of `ask_user_for_tool_result` (human_in_loop.py lines
11-52): `userInput` is the interactive channel, `none` modelling the
EOFError of a non-interactive run.  Interactive input is stripped; empty
input is replaced by the fixed fallback string. -/
def ask_user_for_tool_result (errorMessage : String) (stepDescription : String)
    (userInput : Option String) : String :=
  match userInput with
  | none =>
      "Tool execution failed: " ++ errorMessage ++ ". Step: " ++
        stepDescription ++ ". No user input available (non-interactive mode)."
  | some raw =>
      let t := pyStrip raw
      if t = "" then "Tool failed, no user input provided" else t

/-- Python truthiness of the last-error slot: None and the empty string are
falsy. -/
def errTruthy : Option String → Bool
  | none => false
  | some s => s ≠ ""

/-- The execution-result dictionary of `run_user_code`, without the two
wall-clock timing entries. -/
structure ExecResult where
  status : String
  result : Option String := none
  error : Option String := none
  retry_count : Nat := 0
  human_provided : Bool := false
  deriving DecidableEq, Repr

/-- Instrumentation of one call of `run_user_code`: how many tool callables
were invoked and how many times the wrapped sandboxed unit was executed. -/
structure RunStats where
  toolCalls : Nat
  sandboxExecs : Nat
  deriving DecidableEq, Repr

/-- Instrumentation contributed by one loop iteration. -/
def attemptStats : Attempt → RunStats
  | .fatalTooMany _ => ⟨0, 0⟩
  | .preExn _ => ⟨0, 0⟩
  | .runExn _ tc => ⟨tc, 1⟩
  | .toolError _ tc => ⟨tc, 1⟩
  | .success _ tc => ⟨tc, 1⟩

/-- Pointwise sum of instrumentation counters. -/
def RunStats.add (a b : RunStats) : RunStats :=
  ⟨a.toolCalls + b.toolCalls, a.sandboxExecs + b.sandboxExecs⟩

/-- The retry loop of `run_user_code` (executor.py lines 147-307) together
with the post-loop escalation code.  The first numeric argument is the
number of loop iterations the while condition still allows, i.e. the
configured maximum minus the current retry counter, so its zero case is
exactly the exit of the while loop; a retryable failure (raised exception or
tool-reported error) increments the retry counter and re-enters the loop; on
exhaustion, a truthy last error
triggers the human-escalation path whose reply is returned as a success with
the human-provided flag, and a falsy last error yields the fallback error
return.  The second component is instrumentation. -/
def runUserCodeLoop (code : Source) (tools : List (String × ToolFn))
    (humanInput : Option String) (stepDescription : String) :
    Nat → Nat → Option String → RunStats → ExecResult × RunStats
  | 0, retryCount, lastError, acc =>
      if errTruthy lastError then
        ({ status := "success",
           result := some (ask_user_for_tool_result (lastError.getD "")
             stepDescription humanInput),
           retry_count := retryCount,
           human_provided := true }, acc)
      else
        ({ status := "error", error := some "Unknown error",
           retry_count := retryCount }, acc)
  | remaining + 1, retryCount, _lastError, acc =>
      match attemptOnce code tools with
      | .fatalTooMany n =>
          ({ status := "error",
             error := some ("Too many functions (" ++ toString n ++ " > " ++
               toString MAX_FUNCTIONS ++ ")"),
             retry_count := retryCount },
           acc.add (attemptStats (attemptOnce code tools)))
      | .success res _ =>
          ({ status := "success", result := some res, retry_count := retryCount },
           acc.add (attemptStats (attemptOnce code tools)))
      | .preExn msg =>
          runUserCodeLoop code tools humanInput stepDescription remaining
            (retryCount + 1) (some msg) (acc.add (attemptStats (attemptOnce code tools)))
      | .runExn msg _ =>
          runUserCodeLoop code tools humanInput stepDescription remaining
            (retryCount + 1) (some msg) (acc.add (attemptStats (attemptOnce code tools)))
      | .toolError msg _ =>
          runUserCodeLoop code tools humanInput stepDescription remaining
            (retryCount + 1) (some msg) (acc.add (attemptStats (attemptOnce code tools)))

/-- The embedding of `run_user_code` (executor.py lines 121-307).
`maxRetries` is the configured maximum retry count read from the control
manager, `humanInput` the interactive channel of the escalation path. -/
def run_user_code (code : Source) (tools : List (String × ToolFn))
    (maxRetries : Nat) (stepDescription : String) (humanInput : Option String) :
    ExecResult × RunStats :=
  runUserCodeLoop code tools humanInput stepDescription maxRetries 0 none ⟨0, 0⟩

/-! Sandbox capability set (`build_safe_globals`, executor.py lines 83-115). -/

/-- The names bound in the restricted `__builtins__` dictionary of the
sandbox (executor.py lines 85-88). -/
def SAFE_BUILTIN_NAMES : List String :=
  ["range", "len", "int", "float", "str", "list", "dict", "print", "sum",
   "__import__"]

/-- The fixed module allow-list ALLOWED_MODULES (executor.py lines 18-20). -/
def ALLOWED_MODULES : List String :=
  ["math", "cmath", "decimal", "fractions", "random", "statistics",
   "itertools", "functools", "operator", "string", "re", "datetime",
   "calendar", "time", "collections", "heapq", "bisect", "types", "copy",
   "enum", "uuid", "dataclasses", "typing", "pprint", "json", "base64",
   "hashlib", "hmac", "secrets", "struct", "zlib", "gzip", "bz2", "lzma",
   "io", "pathlib", "tempfile", "textwrap", "difflib", "unicodedata",
   "html", "html.parser", "xml", "xml.etree.ElementTree", "csv", "sqlite3",
   "contextlib", "traceback", "ast", "tokenize", "token", "builtins"]

/-- The keys of the global environment dictionary built by
`build_safe_globals`: the restricted builtins dictionary, the bound tool
callables, every allow-listed module, the final-answer sink, and the
parallel combinator when a multi-MCP instance is supplied. -/
def build_safe_globals_keys (toolNames : List String) (hasMultiMcp : Bool) :
    List String :=
  ["__builtins__"] ++ toolNames ++ ALLOWED_MODULES ++ ["final_answer"] ++
    (if hasMultiMcp then ["parallel"] else [])

/-- The capability set the specification declares for the sandbox: the fixed
built-in primitives, the allow-listed modules, the bound tool callables, the
final-answer sink and the optional parallel combinator. -/
def declaredCapabilitySet (toolNames : List String) (hasMultiMcp : Bool) :
    List String :=
  SAFE_BUILTIN_NAMES ++ ALLOWED_MODULES ++ toolNames ++ ["final_answer"] ++
    (if hasMultiMcp then ["parallel"] else [])

/-- Whether executed code can obtain the module named `m`: either the module
is bound directly into the sandbox globals (allow-list), or the restricted
builtins expose the dynamic-import primitive, whose Python semantics lets
code import any module by name. -/
def moduleObtainable (m : String) : Bool :=
  ALLOWED_MODULES.contains m || SAFE_BUILTIN_NAMES.contains "__import__"

/-! Positional parameter binding, for the keyword-to-positional rewrite. -/

/-- The callee parameter that a positional argument at the given position
binds to under Python positional-call semantics. -/
def boundParam (params : List String) (pos : Nat) : Option String :=
  params[pos]?

/-! The plan graph.  The `PlanGraph`, `StepNode`, `CodeVariant` and
`StepStatus` classes live in `core/plan_graph.py`, which is imported by the
executor, the context manager and the decision module but is not part of the
source tree; the definitions below are modelled from the spec (sections 3
and 4.4) and from how those importers use the class. -/

/-- Modelled from the spec: the step-status state machine of section 4.4
(`core/plan_graph.py` is not in the source tree). -/
inductive StepStatus where
  | pending
  | completed
  | failed
  | skipped
  deriving DecidableEq, Repr

/-- Modelled from the spec: one candidate implementation for a step — a
name, immutable source text, a per-variant retry ceiling and a mutable
retry counter (spec section 3). -/
structure CodeVariant where
  name : String
  source : String
  max_retries : Nat := 3
  retries : Nat := 0
  deriving DecidableEq, Repr

/-- Modelled from the spec: one unit of the plan graph — string identity,
description, ordered code variants, current status, fallback flag, last
error text and the globals delta recorded on success (spec section 3). -/
structure StepNode where
  index : String
  description : String
  variants : List CodeVariant
  is_fallback : Bool := false
  status : StepStatus := .pending
  error : Option String := none
  globals_delta : Option (List (String × Option String)) := none
  deriving DecidableEq, Repr

/-- Modelled from the spec: the plan graph owns an insertion-ordered mapping
from node id to step node and an adjacency relation, kept here as the list
of (parent, child) edges in insertion order (spec section 3). -/
structure PlanGraph where
  nodes : List (String × StepNode) := []
  edges : List (String × String) := []
  start_node_id : Option String := none
  deriving DecidableEq, Repr

/-- Modelled from the spec: membership test for a node id. -/
def hasNode (g : PlanGraph) (id : String) : Bool :=
  (g.nodes.map Prod.fst).contains id

/-- Modelled from the spec: node lookup by id. -/
def getNode (g : PlanGraph) (id : String) : Option StepNode :=
  (g.nodes.find? (fun p => p.1 = id)).map Prod.snd

/-- Modelled from the spec: node insertion, keyed by the node's own index. -/
def addNode (g : PlanGraph) (n : StepNode) : PlanGraph :=
  { g with nodes := g.nodes ++ [(n.index, n)] }

/-- Modelled from the spec: edge insertion. -/
def addEdge (g : PlanGraph) (parent child : String) : PlanGraph :=
  { g with edges := g.edges ++ [(parent, child)] }

/-- Modelled from the spec: the children of a node, in edge insertion
order. -/
def getChildren (g : PlanGraph) (id : String) : List String :=
  (g.edges.filter (fun e => e.1 = id)).map Prod.snd

/-- Modelled from the spec: in-place update of one node of the graph. -/
def updateNode (g : PlanGraph) (id : String) (f : StepNode → StepNode) :
    PlanGraph :=
  { g with nodes := g.nodes.map (fun p => if p.1 = id then (p.1, f p.2) else p) }

/-! Fallback-node synthesis (`add_fallback_node`, decision.py lines 739-777)
and next-node selection (`select_next_node`, decision.py lines 779-815). -/

/-- Decimal digit characters. -/
def digitChar (d : Nat) : Char :=
  match d with
  | 0 => '0'
  | 1 => '1'
  | 2 => '2'
  | 3 => '3'
  | 4 => '4'
  | 5 => '5'
  | 6 => '6'
  | 7 => '7'
  | 8 => '8'
  | _ => '9'

/-- Decimal rendering of a natural number, as the f-string interpolation in
decision.py renders the fallback counter. -/
def natRepr (n : Nat) : String :=
  if n = 0 then "0" else String.mk (((Nat.digits 10 n).map digitChar).reverse)

/-- Fallback-node id for a failed parent node and a probe counter: the
parent id followed by the letter F and the decimal counter (decision.py
line 752). -/
def fallbackId (parent : String) (n : Nat) : String :=
  parent ++ "F" ++ natRepr n

/-- Distinct decimal digits render as distinct characters. -/
theorem digitChar_inj_lt :
    ∀ a : Nat, a < 10 → ∀ b : Nat, b < 10 → digitChar a = digitChar b → a = b := by
  decide

/-- Digit lists below the base render injectively. -/
theorem map_digitChar_inj :
    ∀ l1 l2 : List Nat, (∀ x ∈ l1, x < 10) → (∀ x ∈ l2, x < 10) →
      l1.map digitChar = l2.map digitChar → l1 = l2
  | [], [], _, _, _ => rfl
  | [], _ :: _, _, _, h => by simp at h
  | _ :: _, [], _, _, h => by simp at h
  | a :: l1, b :: l2, h1, h2, h => by
      simp only [List.map_cons, List.cons.injEq] at h
      have hab := digitChar_inj_lt a (h1 a (by simp)) b (h2 b (by simp)) h.1
      subst hab
      rw [map_digitChar_inj l1 l2 (fun x hx => h1 x (by simp [hx]))
        (fun x hx => h2 x (by simp [hx])) h.2]

/-- The decimal rendering is injective. -/
theorem natRepr_inj : Function.Injective natRepr := by
  intro a b h
  unfold natRepr at h
  by_cases ha : a = 0 <;> by_cases hb : b = 0
  · rw [ha, hb]
  · rw [if_pos ha, if_neg hb] at h
    have hd := congrArg String.data h
    have h0 : ("0" : String).data = ['0'] := rfl
    rw [h0] at hd
    simp only [String.mk] at hd
    have hmap : (Nat.digits 10 b).map digitChar = ['0'] := by
      have := congrArg List.reverse hd
      simpa using this.symm
    rcases hds : Nat.digits 10 b with _ | ⟨d, t⟩
    · rw [hds] at hmap; simp at hmap
    · rw [hds] at hmap
      simp only [List.map_cons, List.cons.injEq, List.map_eq_nil_iff] at hmap
      have hdlt : d < 10 :=
        Nat.digits_lt_base (by norm_num) (by rw [hds]; simp)
      have hd0 : d = 0 :=
        digitChar_inj_lt d hdlt 0 (by norm_num) (by rw [hmap.1]; rfl)
      have hofd := Nat.ofDigits_digits 10 b
      rw [hds, hmap.2, hd0] at hofd
      simp [Nat.ofDigits] at hofd
      exact absurd hofd.symm hb
  · rw [if_neg ha, if_pos hb] at h
    have hd := congrArg String.data h
    have h0 : ("0" : String).data = ['0'] := rfl
    rw [h0] at hd
    simp only [String.mk] at hd
    have hmap : (Nat.digits 10 a).map digitChar = ['0'] := by
      have := congrArg List.reverse hd
      simpa using this
    rcases hds : Nat.digits 10 a with _ | ⟨d, t⟩
    · rw [hds] at hmap; simp at hmap
    · rw [hds] at hmap
      simp only [List.map_cons, List.cons.injEq, List.map_eq_nil_iff] at hmap
      have hdlt : d < 10 :=
        Nat.digits_lt_base (by norm_num) (by rw [hds]; simp)
      have hd0 : d = 0 :=
        digitChar_inj_lt d hdlt 0 (by norm_num) (by rw [hmap.1]; rfl)
      have hofd := Nat.ofDigits_digits 10 a
      rw [hds, hmap.2, hd0] at hofd
      simp [Nat.ofDigits] at hofd
      exact absurd hofd.symm ha
  · rw [if_neg ha, if_neg hb] at h
    have hd := congrArg String.data h
    simp only [String.mk] at hd
    have hrev := congrArg List.reverse hd
    simp only [List.reverse_reverse] at hrev
    have hdig := map_digitChar_inj (Nat.digits 10 a) (Nat.digits 10 b)
      (fun x hx => Nat.digits_lt_base (by norm_num) hx)
      (fun x hx => Nat.digits_lt_base (by norm_num) hx) hrev
    exact Nat.digits_inj_iff.mp hdig

/-- Two probe counters for the same parent give the same id only if they are
equal. -/
theorem fallbackId_inj (parent : String) {a b : Nat}
    (h : fallbackId parent a = fallbackId parent b) : a = b := by
  unfold fallbackId at h
  have h2 := congrArg String.data h
  simp only [String.data_append] at h2
  have h3 := List.append_cancel_left h2
  have h4 : natRepr a = natRepr b := by
    cases hna : natRepr a
    cases hnb : natRepr b
    rw [hna, hnb] at h3
    exact congrArg String.mk h3
  exact natRepr_inj h4

/-- A plan graph holds finitely many node ids, so some probe counter is
always free: the while loop of `add_fallback_node` terminates. -/
theorem exists_free_fallback (g : PlanGraph) (parent : String) :
    ∃ k : Nat, hasNode g (fallbackId parent (2 + k)) = false := by
  by_contra hc
  push_neg at hc
  have hmem : ∀ k : Nat, fallbackId parent (2 + k) ∈ g.nodes.map Prod.fst := by
    intro k
    have hk := hc k
    rcases hb : hasNode g (fallbackId parent (2 + k)) with _ | _
    · exact absurd hb (hk)
    · simpa [hasNode] using hb
  have hinj : Function.Injective (fun k : Nat => fallbackId parent (2 + k)) := by
    intro x y hxy
    have := fallbackId_inj parent hxy
    omega
  have hinf : {s | s ∈ g.nodes.map Prod.fst}.Infinite :=
    Set.infinite_of_injective_forall_mem hinj hmem
  exact hinf (g.nodes.map Prod.fst).finite_toSet

/-- The probe of `add_fallback_node` (decision.py lines 751-760): counter 1
when the first candidate id is free, otherwise the first free counter at or
above 2. -/
def chooseFallbackCounter (g : PlanGraph) (parent : String) : Nat :=
  if hasNode g (fallbackId parent 1) = false then 1
  else 2 + Nat.find (exists_free_fallback g parent)

/-- The embedding of `add_fallback_node` (decision.py lines 739-777):
probe a free id, build the single fallback variant and the fallback node,
insert the node and an edge from the failed node, return the new id together
with the updated graph. -/
def add_fallback_node (g : PlanGraph) (failed_step_id : String) :
    String × PlanGraph :=
  let fallback_id := fallbackId failed_step_id
    (chooseFallbackCounter g failed_step_id)
  let fallback_variant : CodeVariant :=
    { name := fallback_id ++ "A", source := "# Fallback execution method",
      max_retries := 1 }
  let fallback_node : StepNode :=
    { index := fallback_id,
      description := "Fallback for step " ++ failed_step_id,
      variants := [fallback_variant],
      is_fallback := true }
  let g := addNode g fallback_node
  let g := addEdge g failed_step_id fallback_id
  (fallback_id, g)

/-- Modelled from the spec: the perception snapshot consumed by the decision
layer (spec section 6); `select_next_node` receives it but never consults
it. -/
structure PerceptionResult where
  route : String := ""
  goal_met : Bool := false
  deriving DecidableEq, Repr

/-- The first child of the current node whose node is a fallback node, in
edge insertion order (the for loop of decision.py lines 805-809). -/
def firstFallbackChild (g : PlanGraph) (id : String) : Option String :=
  (getChildren g id).find? fun cid =>
    match getNode g cid with
    | some c => c.is_fallback
    | none => false

/-- The embedding of `select_next_node` (decision.py lines 779-815): unknown
current node gives no successor; a FAILED current node prefers its first
fallback child; otherwise the first child in insertion order; no children
means execution of this branch is complete. -/
def select_next_node (g : PlanGraph) (current_node_id : String)
    (perception : PerceptionResult) : Option String :=
  match getNode g current_node_id with
  | none => none
  | some node =>
      match
        (if node.status = StepStatus.failed then
          firstFallbackChild g current_node_id
        else none) with
      | some cid => some cid
      | none => (getChildren g current_node_id).head?

/-! The context manager (`core/context_manager.py`) and step execution
(`execute_step`, executor.py lines 365-440). -/

/-- Values stored in the globals scratchpad; the deltas registered by
`execute_step` carry result strings and node ids, a missing result being
Python None. -/
abbrev GVal := Option String

/-- One record of the append-only execution history: the step-result events
of `register_step_result` and the update events of `update_globals`. -/
inductive HistEntry where
  | step_result (node_id : String) (success : Bool) (result : Option String)
      (error : Option String)
  | globals_updated (updates : List (String × GVal))
  deriving DecidableEq, Repr

/-- The embedding of the ContextManager dataclass (context_manager.py lines
11-18). -/
structure ContextManager where
  plan_graph : PlanGraph := {}
  globals_schema : List (String × GVal) := []
  failed_nodes : List String := []
  history : List HistEntry := []
  nodes_executed : List String := []
  deriving DecidableEq, Repr

/-- Python dict.update on the ordered globals mapping: existing keys are
overwritten in place, new keys are appended in update order. -/
def dictUpdate (d upd : List (String × GVal)) : List (String × GVal) :=
  match upd with
  | [] => d
  | (k, v) :: rest =>
      if (d.map Prod.fst).contains k then
        dictUpdate (d.map fun p => if p.1 = k then (k, v) else p) rest
      else
        dictUpdate (d ++ [(k, v)]) rest

/-- The embedding of `update_globals` (context_manager.py lines 65-68):
merge the updates into the globals schema and log the event. -/
def update_globals (cm : ContextManager) (updates : List (String × GVal)) :
    ContextManager :=
  { cm with
    globals_schema := dictUpdate cm.globals_schema updates,
    history := cm.history ++ [.globals_updated updates] }

/-- Python truthiness of the logged result string: None and the empty string
log as None (line 47 of context_manager.py). -/
def truthyResult : Option String → Option String
  | none => none
  | some s => if s = "" then none else some s

/-- The embedding of `register_step_result` (context_manager.py lines
25-63).  The second component is the message of the raised ValueError, if
any; the first is the context-manager state when the call returns or the
exception leaves it, and the raise for an unknown node id precedes every
mutation. -/
def register_step_result (cm : ContextManager) (node_id : String)
    (success : Bool) (result : Option String)
    (globals_delta : Option (List (String × GVal)))
    (error : Option String) : ContextManager × Option String :=
  match getNode cm.plan_graph node_id with
  | none => (cm, some ("Node " ++ node_id ++ " not found in plan graph"))
  | some _ =>
      let cm := { cm with
        plan_graph := updateNode cm.plan_graph node_id fun n =>
          { n with
            status := if success then .completed else .failed,
            error := error } }
      let cm := { cm with
        history := cm.history ++
          [.step_result node_id success (truthyResult result) error] }
      let cm :=
        if cm.nodes_executed.contains node_id then cm
        else { cm with nodes_executed := cm.nodes_executed ++ [node_id] }
      let cm :=
        if success then cm
        else if cm.failed_nodes.contains node_id then cm
        else { cm with failed_nodes := cm.failed_nodes ++ [node_id] }
      let cm :=
        match globals_delta with
        | none => cm
        | some gd =>
            if gd.isEmpty then cm
            else
              let cm := update_globals cm gd
              { cm with
                plan_graph := updateNode cm.plan_graph node_id fun n =>
                  { n with globals_delta := some gd } }
      (cm, none)

/-- The result dictionary of `execute_step` with its variant tracking. -/
structure StepResult where
  status : String
  result : Option String := none
  error : Option String := none
  variants_tried : List String := []
  variant_succeeded : Option String := none
  node_id : String
  deriving DecidableEq, Repr

/-- The (success, result, error) triple returned by `run_code_variant` for
one variant.  `execute_step` is embedded relative to this oracle, which
stands for the awaited `run_code_variant` call; the oracle abstraction keeps
the step-level control flow independent of the executor's internal
nondeterminism (tool behaviour, human input).  The retry-counter increment
that `run_code_variant` performs on the variant object is not tracked. -/
abbrev VariantRun := CodeVariant → Bool × Option String × Option String

/-- Python `x or y` on the optional last error string of `execute_step`
(line 437): a falsy value (None or the empty string) selects the
fallback. -/
def pyOr (o : Option String) (d : String) : String :=
  match o with
  | none => d
  | some s => if s = "" then d else s

/-- The variant loop of `execute_step` (executor.py lines 394-440): try each
variant in declared order, append its name to the tried list, and on the
first success register a COMPLETED result with the last-result globals delta
and return; when the list is exhausted register a FAILED result.  A raise
from result registration propagates as the error value. -/
def execStepGo (node : StepNode) (cm : ContextManager) (run : VariantRun) :
    List CodeVariant → List String → Option String →
    Except String (StepResult × ContextManager)
  | [], tried, lastErr =>
      match register_step_result cm node.index false none none lastErr with
      | (_, some msg) => .error msg
      | (cm2, none) =>
          .ok ({ status := "error",
                 error := some (pyOr lastErr "All variants failed"),
                 variants_tried := tried,
                 node_id := node.index }, cm2)
  | v :: rest, tried, lastErr =>
      let tried2 := tried ++ [v.name]
      match run v with
      | (true, res, _) =>
          match register_step_result cm node.index true res
              (some [("last_result", res), ("last_node", some node.index)])
              none with
          | (_, some msg) => .error msg
          | (cm2, none) =>
              .ok ({ status := "success",
                     result := res,
                     variants_tried := tried2,
                     variant_succeeded := some v.name,
                     node_id := node.index }, cm2)
      | (false, _, err) => execStepGo node cm run rest tried2 err

/-- The embedding of `execute_step`: run the variant loop from the node's
declared variant list. -/
def execute_step (node : StepNode) (cm : ContextManager) (run : VariantRun) :
    Except String (StepResult × ContextManager) :=
  execStepGo node cm run node.variants [] none

/-- Status of a node of the context manager's plan graph. -/
def nodeStatus (cm : ContextManager) (id : String) : Option StepStatus :=
  (getNode cm.plan_graph id).map StepNode.status

/-! Concrete fixtures used by the verified scenarios. -/

/-- The retryable failure message of one loop iteration, when the iteration
neither succeeded nor returned fatally. -/
def retryMsg : Attempt → Option String
  | .preExn m => some m
  | .runExn m _ => some m
  | .toolError m _ => some m
  | .fatalTooMany _ => none
  | .success _ _ => none

/-- The last-error slot after the variant loop of `execute_step` has
consumed a list of failing variants. -/
def lastVariantError (run : VariantRun) : List CodeVariant → Option String → Option String
  | [], le => le
  | v :: rest, _ => lastVariantError run rest (run v).2.2

/-- Scenario A variant source: assign 2 + 2 to result, then a top-level
return of result (accepted by ast.parse; only bytecode compilation rejects a
bare return, and the executor wraps the body in a function first). -/
def srcScenarioA : Source :=
  ⟨false, some [.assign "result" (.binAdd (.constInt 2) (.constInt 2)),
    .ret (.name "result")]⟩

/-- Scenario B variant source: a call to a tool name that is not
registered, raising a NameError at run time. -/
def srcScenarioB : Source :=
  ⟨false, some [.assign "result" (.call "mystery_tool" [] []),
    .ret (.name "result")]⟩

/-- A variant source returning the value of a single tool call. -/
def srcToolCall : Source := ⟨false, some [.ret (.call "t" [] [])]⟩

/-- A tool registry whose only tool reports an error with empty text. -/
def toolsEmptyErr : List (String × ToolFn) := [("t", fun _ => .toolErr "")]

/-- An empty variant source. -/
def srcEmpty : Source := ⟨true, some []⟩

/-- The failed node 1 of the scenario D graph. -/
def nodeD1 : StepNode :=
  { index := "1", description := "s1", variants := [], status := .failed }

/-- Scenario D plan graph: nodes 0 → 1 → 2 in a chain, node 1 FAILED with
its synthesized fallback 1F1 attached after the edge to node 2. -/
def gScenarioD : PlanGraph :=
  { nodes :=
      [("0", { index := "0", description := "s0", variants := [],
               status := .completed }),
       ("1", nodeD1),
       ("2", { index := "2", description := "s2", variants := [] }),
       ("1F1", { index := "1F1", description := "fb", variants := [],
                 is_fallback := true })],
    edges := [("0", "1"), ("1", "2"), ("1", "1F1")] }

/-- Scenario C variants 0A, 0B, 0C. -/
def varA : CodeVariant := { name := "0A", source := "a" }

/-- Scenario C second variant. -/
def varB : CodeVariant := { name := "0B", source := "b" }

/-- Scenario C third variant. -/
def varC : CodeVariant := { name := "0C", source := "c" }

/-- Scenario C step node holding the three variants. -/
def nodeScenarioC : StepNode :=
  { index := "0", description := "step", variants := [varA, varB, varC] }

/-- Context manager owning the scenario C plan graph. -/
def cmScenarioC : ContextManager :=
  { plan_graph := { nodes := [("0", nodeScenarioC)] } }

/-- Scenario C variant oracle: 0A and 0B fail, 0C succeeds. -/
def runScenarioC : VariantRun := fun v =>
  if v.name = "0C" then (true, some "42", none) else (false, none, some "boom")

/-- The single variant that add_fallback_node gives a synthesized node. -/
def fallbackVariantFor (g : PlanGraph) (p : String) : CodeVariant :=
  { name := fallbackId p (chooseFallbackCounter g p) ++ "A",
    source := "# Fallback execution method",
    max_retries := 1 }

/-- The step node that add_fallback_node inserts for a failed parent. -/
def fallbackNodeFor (g : PlanGraph) (p : String) : StepNode :=
  { index := fallbackId p (chooseFallbackCounter g p),
    description := "Fallback for step " ++ p,
    variants := [fallbackVariantFor g p],
    is_fallback := true }

/-- A module body declaring six call expressions, one above the ceiling. -/
def srcManyBody : List Stmt :=
  [.exprStmt (.call "f" [.call "g" [] [], .call "h" [] []] []),
   .exprStmt (.call "f" [.call "g" [] [], .call "h" [] []] [])]

/-- A variant source whose call count exceeds the ceiling. -/
def srcManyCalls : Source := ⟨false, some srcManyBody⟩

/-! Supporting lemmas about the retry loop. -/

/-- When every iteration fails retryably with message `m`, the loop runs its
remaining budget down and exits through the exhaustion code with the retry
counter advanced by the budget: escalation when the message is truthy, the
fallback error return when it is empty. -/
theorem runLoop_exhaust_fst (code : Source) (tools : List (String × ToolFn))
    (hi : Option String) (sd : String) (m : String)
    (hatt : retryMsg (attemptOnce code tools) = some m) :
    ∀ remaining rc (le : Option String) (acc : RunStats),
      (runUserCodeLoop code tools hi sd (remaining + 1) rc le acc).1 =
        (if m ≠ "" then
          { status := "success",
            result := some (ask_user_for_tool_result m sd hi),
            retry_count := rc + (remaining + 1),
            human_provided := true }
        else
          { status := "error", error := some "Unknown error",
            retry_count := rc + (remaining + 1) }) := by
  intro remaining
  induction remaining with
  | zero =>
      intro rc le acc
      cases h : attemptOnce code tools with
      | fatalTooMany n => rw [h] at hatt; simp [retryMsg] at hatt
      | success r tc => rw [h] at hatt; simp [retryMsg] at hatt
      | preExn m2 =>
          rw [h] at hatt
          simp only [retryMsg, Option.some.injEq] at hatt
          subst hatt
          simp only [runUserCodeLoop, h, errTruthy, Option.getD_some]
          by_cases hm : m2 = ""
          · simp [hm]
          · simp [hm]
      | runExn m2 tc =>
          rw [h] at hatt
          simp only [retryMsg, Option.some.injEq] at hatt
          subst hatt
          simp only [runUserCodeLoop, h, errTruthy, Option.getD_some]
          by_cases hm : m2 = ""
          · simp [hm]
          · simp [hm]
      | toolError m2 tc =>
          rw [h] at hatt
          simp only [retryMsg, Option.some.injEq] at hatt
          subst hatt
          simp only [runUserCodeLoop, h, errTruthy, Option.getD_some]
          by_cases hm : m2 = ""
          · simp [hm]
          · simp [hm]
  | succ k ih =>
      intro rc le acc
      have harith : rc + 1 + (k + 1) = rc + (k + 1 + 1) := by omega
      cases h : attemptOnce code tools with
      | fatalTooMany n => rw [h] at hatt; simp [retryMsg] at hatt
      | success r tc => rw [h] at hatt; simp [retryMsg] at hatt
      | preExn m2 =>
          conv_lhs => rw [runUserCodeLoop]
          simp only [h]
          rw [ih (rc + 1) (some m2) _, harith]
      | runExn m2 tc =>
          conv_lhs => rw [runUserCodeLoop]
          simp only [h]
          rw [ih (rc + 1) (some m2) _, harith]
      | toolError m2 tc =>
          conv_lhs => rw [runUserCodeLoop]
          simp only [h]
          rw [ih (rc + 1) (some m2) _, harith]

/-- A failure raised before the sandboxed unit runs contributes nothing to
the instrumentation counters, whatever the loop budget. -/
theorem runLoop_preExn_stats (code : Source) (tools : List (String × ToolFn))
    (hi : Option String) (sd : String) (m : String)
    (hatt : attemptOnce code tools = .preExn m) :
    ∀ remaining rc (le : Option String) (acc : RunStats),
      (runUserCodeLoop code tools hi sd remaining rc le acc).2 = acc := by
  intro remaining
  induction remaining with
  | zero =>
      intro rc le acc
      simp only [runUserCodeLoop]
      split <;> rfl
  | succ k ih =>
      intro rc le acc
      simp only [runUserCodeLoop, hatt]
      rw [ih]
      cases acc
      simp [RunStats.add, attemptStats]

/-! Claim theorems. -/

/-- C1: for the variant source that assigns 2 + 2 to result and returns it
(ast.parse accepts the top-level return; the executor wraps the body in an
async function before bytecode compilation), run_user_code returns status
success with result the string 4 and retry count 0, for every tool
registry, every positive configured retry maximum, every step description
and every escalation channel. -/
theorem C1_scenario_a (tools : List (String × ToolFn)) (maxRetries : Nat)
    (hmax : 1 ≤ maxRetries) (sd : String) (hi : Option String) :
    run_user_code srcScenarioA tools maxRetries sd hi =
      ({ status := "success", result := some "4", retry_count := 0 }, ⟨0, 1⟩) := by
  obtain ⟨r, rfl⟩ : ∃ r, maxRetries = r + 1 := ⟨maxRetries - 1, by omega⟩
  have hatt : attemptOnce srcScenarioA tools = .success "4" 0 := rfl
  unfold run_user_code
  conv_lhs => rw [runUserCodeLoop]
  simp only [hatt]
  rfl

/-- Witness for C1 at the default configuration. -/
theorem C1_scenario_a_witness :
    (1 ≤ 3) ∧ run_user_code srcScenarioA [] 3 "" none =
      ({ status := "success", result := some "4", retry_count := 0 }, ⟨0, 1⟩) :=
  ⟨by decide, C1_scenario_a [] 3 (by decide) "" none⟩

/-- C2 counterexample: on the empty source, with retry maximum 3 and an
interactive human answering 4, run_user_code does not fail fatally before
retrying: it exhausts all three retries and then invokes the human
escalation path, returning the reply as a success — contradicting the
claimed immediate, unretried, unescalated InvalidCode failure. -/
theorem C2_counterexample :
    (run_user_code srcEmpty [] 3 "step" (some "4")).1 =
      { status := "success", result := some "4", retry_count := 3,
        human_provided := true } ∧
    (run_user_code srcEmpty [] 3 "step" (some "4")).1.status ≠ "error" ∧
    (run_user_code srcEmpty [] 3 "step" (some "4")).1.retry_count ≠ 0 :=
  ⟨by decide, by decide, by decide⟩

/-- C2 (amended): an empty, zero-statement or syntactically invalid variant
source raises before any sandboxed execution is attempted — no tool is
invoked and the wrapped unit never runs — but the failure is retryable, not
fatal: run_user_code retries it up to the configured maximum and then
invokes the human-escalation path, returning the escalation reply as a
success with the human-provided flag set; no dedicated InvalidCode error
exists. -/
theorem C2_invalid_source_retried (code : Source)
    (tools : List (String × ToolFn)) (maxRetries : Nat) (sd : String)
    (hi : Option String) (hmax : 1 ≤ maxRetries)
    (hsrc : code.parsed = none ∨ code.parsed = some []) :
    (run_user_code code tools maxRetries sd hi).2 = ⟨0, 0⟩ ∧
    (run_user_code code tools maxRetries sd hi).1.status = "success" ∧
    (run_user_code code tools maxRetries sd hi).1.human_provided = true ∧
    (run_user_code code tools maxRetries sd hi).1.retry_count = maxRetries := by
  have hA : ∃ m, attemptOnce code tools = .preExn m ∧ m ≠ "" := by
    rcases hsrc with h | h
    · refine ⟨"SyntaxError: invalid syntax", ?_, by decide⟩
      unfold attemptOnce
      rw [h]
    · by_cases hb : code.blank
      · refine ⟨"ValueError: Generated code is empty. Decision module may have failed to generate valid code.", ?_, by decide⟩
        unfold attemptOnce
        rw [h]
        simp [count_function_calls, MAX_FUNCTIONS, hb]
      · refine ⟨"ValueError: Parsed code has no statements. Decision module generated invalid code.", ?_, by decide⟩
        unfold attemptOnce
        rw [h]
        simp [count_function_calls, MAX_FUNCTIONS, hb]
  obtain ⟨m, hm, hne⟩ := hA
  obtain ⟨r, rfl⟩ : ∃ r, maxRetries = r + 1 := ⟨maxRetries - 1, by omega⟩
  have h1 := runLoop_exhaust_fst code tools hi sd m (by rw [hm]; rfl) r 0 none ⟨0, 0⟩
  have h2 := runLoop_preExn_stats code tools hi sd m hm (r + 1) 0 none ⟨0, 0⟩
  rw [if_pos hne] at h1
  unfold run_user_code
  refine ⟨h2, ?_, ?_, ?_⟩ <;> rw [h1] <;> simp

/-- Witness for the amended C2 at the empty source. -/
theorem C2_invalid_source_retried_witness :
    ((1 ≤ 3) ∧ (srcEmpty.parsed = none ∨ srcEmpty.parsed = some [])) ∧
    ((run_user_code srcEmpty [] 3 "s" none).2 = ⟨0, 0⟩ ∧
     (run_user_code srcEmpty [] 3 "s" none).1.status = "success" ∧
     (run_user_code srcEmpty [] 3 "s" none).1.human_provided = true ∧
     (run_user_code srcEmpty [] 3 "s" none).1.retry_count = 3) :=
  ⟨⟨by decide, Or.inr rfl⟩,
   C2_invalid_source_retried srcEmpty [] 3 "s" none (by decide) (Or.inr rfl)⟩

/-- C3 counterexample: a persistent tool-reported error whose extracted text
is empty exhausts the retries and then returns a terminal error directly —
no escalation — even though the escalation channel is available and
non-empty, contradicting the claim that exhaustion never returns an error
without first escalating. -/
theorem C3_counterexample :
    (run_user_code srcToolCall toolsEmptyErr 3 "step" (some "42")).1 =
      { status := "error", error := some "Unknown error", retry_count := 3 } ∧
    (some "42" : Option String) ≠ none ∧ ("42" : String) ≠ "" :=
  ⟨by decide, by decide, by decide⟩

/-- C3 (amended): when a retryable failure (raised error or tool-reported
error) persists until the configured retry maximum is exhausted, the
executor escalates to the human path and returns the reply as a success with
the human-provided flag whenever the recorded failure message is non-empty —
including when the channel is non-interactive, via a synthesized default —
and returns a terminal Unknown-error result directly, without escalating,
exactly when the recorded message is empty. -/
theorem C3_retry_exhaustion_escalates (code : Source)
    (tools : List (String × ToolFn)) (maxRetries : Nat) (sd : String)
    (hi : Option String) (m : String) (hmax : 1 ≤ maxRetries)
    (hatt : retryMsg (attemptOnce code tools) = some m) :
    (m ≠ "" → (run_user_code code tools maxRetries sd hi).1 =
      { status := "success",
        result := some (ask_user_for_tool_result m sd hi),
        retry_count := maxRetries, human_provided := true }) ∧
    (m = "" → (run_user_code code tools maxRetries sd hi).1 =
      { status := "error", error := some "Unknown error",
        retry_count := maxRetries }) := by
  obtain ⟨r, rfl⟩ : ∃ r, maxRetries = r + 1 := ⟨maxRetries - 1, by omega⟩
  have h1 := runLoop_exhaust_fst code tools hi sd m hatt r 0 none ⟨0, 0⟩
  unfold run_user_code
  constructor
  · intro hm
    rw [h1, if_pos hm]
    simp
  · intro hm
    rw [h1, if_neg (by simp [hm])]
    simp

/-- Witness for the amended C3: scenario B, the unregistered tool call,
whose NameError persists through three retries and is then answered by the
human with 4. -/
theorem C3_scenario_b_witness :
    ((1 ≤ 3) ∧ retryMsg (attemptOnce srcScenarioB []) =
      some "NameError: name 'mystery_tool' is not defined") ∧
    (run_user_code srcScenarioB [] 3 "step" (some "4")).1 =
      { status := "success", result := some "4", retry_count := 3,
        human_provided := true } := by
  refine ⟨⟨by decide, by rfl⟩, ?_⟩
  have h := (C3_retry_exhaustion_escalates srcScenarioB [] 3 "step" (some "4")
    "NameError: name 'mystery_tool' is not defined" (by decide) (by rfl)).1
    (by decide)
  rw [h]
  rfl

/-- C9: a variant source whose parsed call-expression count exceeds the
ceiling of five is rejected with an error status at retry count 0, with no
tool invocation and no sandboxed execution; with a positive retry maximum
the error text names the count and the ceiling. -/
theorem C9_call_count_guard (code : Source) (tools : List (String × ToolFn))
    (maxRetries : Nat) (sd : String) (hi : Option String) (body : List Stmt)
    (hparse : code.parsed = some body)
    (hcount : count_function_calls body > MAX_FUNCTIONS) :
    (run_user_code code tools maxRetries sd hi).1.status = "error" ∧
    (run_user_code code tools maxRetries sd hi).1.retry_count = 0 ∧
    (run_user_code code tools maxRetries sd hi).2 = ⟨0, 0⟩ ∧
    (1 ≤ maxRetries →
      (run_user_code code tools maxRetries sd hi).1.error =
        some ("Too many functions (" ++ toString (count_function_calls body) ++
          " > " ++ toString MAX_FUNCTIONS ++ ")")) := by
  have hatt : attemptOnce code tools = .fatalTooMany (count_function_calls body) := by
    unfold attemptOnce
    rw [hparse]
    simp [hcount]
  cases maxRetries with
  | zero => exact ⟨rfl, rfl, rfl, fun h => by omega⟩
  | succ r =>
      have he : runUserCodeLoop code tools hi sd (r + 1) 0 none ⟨0, 0⟩ =
          ({ status := "error",
             error := some ("Too many functions (" ++
               toString (count_function_calls body) ++ " > " ++
               toString MAX_FUNCTIONS ++ ")"),
             retry_count := 0 }, ⟨0, 0⟩) := by
        conv_lhs => rw [runUserCodeLoop]
        simp only [hatt]
        rfl
      refine ⟨?_, ?_, ?_, fun _ => ?_⟩ <;> simp [run_user_code, he]

/-- Witness for C9 at a six-call source. -/
theorem C9_call_count_guard_witness :
    (srcManyCalls.parsed = some srcManyBody ∧
      count_function_calls srcManyBody > MAX_FUNCTIONS) ∧
    (run_user_code srcManyCalls [] 3 "" none).1.status = "error" ∧
    (run_user_code srcManyCalls [] 3 "" none).2 = ⟨0, 0⟩ := by
  have h := C9_call_count_guard srcManyCalls [] 3 "" none srcManyBody rfl
    (by decide)
  exact ⟨⟨rfl, by decide⟩, h.1, h.2.2.1⟩

/-- C10: registering a step result for a node id absent from the plan graph
raises the not-found ValueError and leaves the whole context-manager state
unchanged: globals schema, history, executed-node and failed-node lists and
every node status are as before the call. -/
theorem C10_register_unknown_node (cm : ContextManager) (nid : String)
    (success : Bool) (result : Option String)
    (gd : Option (List (String × GVal))) (err : Option String)
    (h : getNode cm.plan_graph nid = none) :
    register_step_result cm nid success result gd err =
      (cm, some ("Node " ++ nid ++ " not found in plan graph")) ∧
    (register_step_result cm nid success result gd err).1.globals_schema =
      cm.globals_schema ∧
    (register_step_result cm nid success result gd err).1.history =
      cm.history ∧
    (register_step_result cm nid success result gd err).1.nodes_executed =
      cm.nodes_executed ∧
    (register_step_result cm nid success result gd err).1.failed_nodes =
      cm.failed_nodes ∧
    ∀ id, nodeStatus (register_step_result cm nid success result gd err).1 id =
      nodeStatus cm id := by
  have he : register_step_result cm nid success result gd err =
      (cm, some ("Node " ++ nid ++ " not found in plan graph")) := by
    unfold register_step_result
    rw [h]
  exact ⟨he, by rw [he], by rw [he], by rw [he], by rw [he], fun id => by rw [he]⟩

/-- Witness for C10 on the empty context manager. -/
theorem C10_register_unknown_node_witness :
    (getNode ({} : ContextManager).plan_graph "x" = none) ∧
    register_step_result {} "x" true (some "r") none none =
      ({}, some ("Node " ++ "x" ++ " not found in plan graph")) :=
  ⟨rfl, (C10_register_unknown_node {} "x" true (some "r") none none rfl).1⟩

/-- C4 counterexample: the os module is outside the declared capability set
of a sandbox built with no tools and no parallel combinator, yet it is
obtainable from executed code, because the restricted builtins expose the
dynamic-import primitive. -/
theorem C4_counterexample :
    moduleObtainable "os" = true ∧ "os" ∉ declaredCapabilitySet [] false :=
  ⟨by decide, by decide⟩

/-- C4 (amended): the initial global environment built by build_safe_globals
contains only the declared capability set (plus the builtins dictionary
itself, whose entries are the declared primitives), but because __import__
is among the exposed builtins, every importable module — allow-listed or
not — is obtainable from inside executed code, so the claimed unreachability
of everything outside the declared set does not hold. -/
theorem C4_sandbox_capability (toolNames : List String) (hasMultiMcp : Bool) :
    (∀ k ∈ build_safe_globals_keys toolNames hasMultiMcp,
      k = "__builtins__" ∨ k ∈ declaredCapabilitySet toolNames hasMultiMcp) ∧
    ∀ m : String, moduleObtainable m = true := by
  constructor
  · intro k hk
    unfold build_safe_globals_keys at hk
    unfold declaredCapabilitySet
    cases hasMultiMcp <;>
      simp only [List.mem_append, List.mem_singleton, List.mem_cons,
        List.not_mem_nil, if_true, if_false, Bool.false_eq_true,
        or_false, false_or] at hk ⊢ <;> tauto
  · intro m
    unfold moduleObtainable
    rw [show SAFE_BUILTIN_NAMES.contains "__import__" = true from by decide,
      Bool.or_true]

/-- Witness for the amended C4: the math module is a sandbox key and is in
the declared capability set. -/
theorem C4_sandbox_capability_witness :
    ("math" ∈ build_safe_globals_keys ["t1"] true) ∧
    ("math" = "__builtins__" ∨ "math" ∈ declaredCapabilitySet ["t1"] true) :=
  ⟨by decide, (C4_sandbox_capability ["t1"] true).1 "math" (by decide)⟩

/-- C5 counterexample: for the call f(b=2, a=1) against a callee declaring
parameters (a, b), the rewrite appends the keyword values in call-site
keyword order, so the value that was named for a ends at position 1 and
binds to parameter b — not to the parameter it was named for. -/
theorem C5_counterexample :
    keywordStripExpr (.call "f" [] [("b", .constInt 2), ("a", .constInt 1)]) =
      .call "f" [.constInt 2, .constInt 1] [] ∧
    boundParam ["a", "b"] 1 = some "b" ∧ ("b" : String) ≠ "a" :=
  ⟨rfl, rfl, by decide⟩

/-- C5 (amended): the keyword-to-positional rewrite appends every keyword
argument's value as a positional argument in call-site keyword order after
the existing positional arguments, discarding the names; a value is bound to
the parameter it was named for exactly when the call's keyword names, in
order, coincide with the callee's parameters from the first unfilled
position onward. -/
theorem C5_keyword_rewrite (f : String) (args : List Expr)
    (kwargs : List (String × Expr)) :
    keywordStripExpr (.call f args kwargs) =
      .call f (keywordStripArgs args ++ keywordStripKwargs kwargs) [] ∧
    keywordStripKwargs kwargs = kwargs.map (fun kw => keywordStripExpr kw.2) ∧
    (∀ params : List String, ∀ i : Nat, i < kwargs.length →
      (params.drop args.length).take kwargs.length = kwargs.map Prod.fst →
      boundParam params (args.length + i) = (kwargs.map Prod.fst)[i]?) := by
  refine ⟨rfl, ?_, ?_⟩
  · induction kwargs with
    | nil => rfl
    | cons kv rest ih =>
        cases kv
        simp [keywordStripKwargs, ih]
  · intro params i hi horder
    have h1 : params[args.length + i]? = (params.drop args.length)[i]? :=
      (List.getElem?_drop params args.length i).symm
    have h2 : ((params.drop args.length).take kwargs.length)[i]? =
        (params.drop args.length)[i]? := List.getElem?_take_of_lt hi
    unfold boundParam
    rw [h1, ← h2, horder]

/-- Witness for the amended C5: stripping f(x=1, y=2) with matching
parameter order (x, y) binds each value to the parameter it was named
for. -/
theorem C5_keyword_rewrite_witness :
    (0 < 2 ∧
      (((["x", "y"] : List String).drop 0).take 2 =
        ([("x", Expr.constInt 1), ("y", Expr.constInt 2)].map Prod.fst))) ∧
    boundParam ["x", "y"] (0 + 0) =
      ([("x", Expr.constInt 1), ("y", Expr.constInt 2)].map Prod.fst)[0]? := by
  refine ⟨⟨by decide, by decide⟩, ?_⟩
  exact (C5_keyword_rewrite "f" [] [("x", .constInt 1), ("y", .constInt 2)]).2.2
    ["x", "y"] 0 (by decide) (by decide)

/-- C7: from a current node, select_next_node prefers the first fallback
child when the current node is FAILED and one exists, otherwise returns the
first child in insertion order, and reports no successor when the node has
no children. -/
theorem C7_select_next_node (g : PlanGraph) (cur : String)
    (p : PerceptionResult) (node : StepNode)
    (h : getNode g cur = some node) :
    (node.status = .failed → ∀ fid, firstFallbackChild g cur = some fid →
      select_next_node g cur p = some fid ∧ fid ∈ getChildren g cur ∧
      ∃ c, getNode g fid = some c ∧ c.is_fallback = true) ∧
    ((node.status ≠ .failed ∨ firstFallbackChild g cur = none) →
      select_next_node g cur p = (getChildren g cur).head?) ∧
    (getChildren g cur = [] → select_next_node g cur p = none) := by
  refine ⟨?_, ?_, ?_⟩
  · intro hf fid hfid
    refine ⟨?_, List.mem_of_find?_eq_some hfid, ?_⟩
    · simp only [select_next_node, h]
      rw [if_pos hf, hfid]
    · have hp := List.find?_some hfid
      cases hgn : getNode g fid with
      | none => simp [hgn] at hp
      | some c => exact ⟨c, rfl, by simpa [hgn] using hp⟩
  · intro hcase
    rcases hcase with hne | hff
    · simp only [select_next_node, h]
      rw [if_neg hne]
    · simp only [select_next_node, h]
      by_cases hf : node.status = .failed
      · rw [if_pos hf, hff]
      · rw [if_neg hf]
  · intro hch
    have hff : firstFallbackChild g cur = none := by
      unfold firstFallbackChild
      rw [hch]
      rfl
    simp only [select_next_node, h]
    by_cases hf : node.status = .failed
    · rw [if_pos hf, hff]
      simp [hch]
    · rw [if_neg hf]
      simp [hch]

/-- Witness for C7: scenario D — node 1 of the chain 0 → 1 → 2 has failed
and carries the fallback child 1F1; selection from node 1 yields 1F1, not
node 2. -/
theorem C7_scenario_d_witness :
    (getNode gScenarioD "1" = some nodeD1 ∧
      firstFallbackChild gScenarioD "1" = some "1F1") ∧
    (select_next_node gScenarioD "1" {} = some "1F1" ∧
      some "1F1" ≠ some "2") := by
  refine ⟨⟨rfl, rfl⟩, ?_, by decide⟩
  exact ((C7_select_next_node gScenarioD "1" {} _ rfl).1 rfl "1F1" rfl).1

/-- The id probed by add_fallback_node is never an existing node id. -/
theorem chooseFallbackCounter_free (g : PlanGraph) (p : String) :
    hasNode g (fallbackId p (chooseFallbackCounter g p)) = false := by
  unfold chooseFallbackCounter
  split_ifs with h
  · exact h
  · exact Nat.find_spec (exists_free_fallback g p)

/-- When the fallback ids already present for a parent are exactly F1..Fk,
the probe chooses counter k + 1. -/
theorem chooseFallbackCounter_eq (g : PlanGraph) (p : String) (k : Nat)
    (hk : ∀ m : Nat, 1 ≤ m → (hasNode g (fallbackId p m) = true ↔ m ≤ k)) :
    chooseFallbackCounter g p = k + 1 := by
  unfold chooseFallbackCounter
  by_cases hk0 : k = 0
  · subst hk0
    have h1 : hasNode g (fallbackId p 1) = false := by
      cases hb : hasNode g (fallbackId p 1) with
      | false => rfl
      | true => exact absurd ((hk 1 le_rfl).1 hb) (by omega)
    rw [if_pos h1]
  · have h1 : hasNode g (fallbackId p 1) = true :=
      (hk 1 le_rfl).2 (by omega)
    rw [if_neg (by simp [h1])]
    have hfind : Nat.find (exists_free_fallback g p) = k - 1 := by
      rw [Nat.find_eq_iff]
      constructor
      · have harr : 2 + (k - 1) = k + 1 := by omega
        rw [harr]
        cases hb : hasNode g (fallbackId p (k + 1)) with
        | false => rfl
        | true => exact absurd ((hk (k + 1) (by omega)).1 hb) (by omega)
      · intro j hj
        have := (hk (2 + j) (by omega)).2 (by omega)
        simp [this]
    omega

/-- An absent node id makes lookup fail. -/
theorem getNode_of_hasNode_false (g : PlanGraph) (id : String)
    (h : hasNode g id = false) : getNode g id = none := by
  simp only [hasNode] at h
  unfold getNode
  rw [List.find?_eq_none.2]
  · rfl
  · intro x hx
    simp only [decide_eq_true_eq]
    intro hxe
    have : id ∈ g.nodes.map Prod.fst := List.mem_map.2 ⟨x, hx, hxe⟩
    simp [this] at h

/-- Node membership after an insertion. -/
theorem hasNode_addNode_iff (g : PlanGraph) (n : StepNode) (id : String) :
    hasNode (addNode g n) id = true ↔ (hasNode g id = true ∨ id = n.index) := by
  simp only [hasNode, addNode, List.map_append, List.map_cons, List.map_nil]
  simp [List.mem_append]

/-- Edge insertion does not change node lookup. -/
theorem getNode_addEdge (g : PlanGraph) (a b id : String) :
    getNode (addEdge g a b) id = getNode g id := rfl

/-- Edge insertion does not change node membership. -/
theorem hasNode_addEdge (g : PlanGraph) (a b id : String) :
    hasNode (addEdge g a b) id = hasNode g id := rfl

/-- Looking up a freshly inserted node returns it. -/
theorem getNode_addNode_self (g : PlanGraph) (n : StepNode)
    (h : hasNode g n.index = false) : getNode (addNode g n) n.index = some n := by
  have hg : getNode g n.index = none := getNode_of_hasNode_false g n.index h
  have hf : g.nodes.find? (fun q => decide (q.1 = n.index)) = none := by
    rcases hfind : g.nodes.find? (fun q => decide (q.1 = n.index)) with _ | q
    · exact hfind
    · unfold getNode at hg
      rw [hfind] at hg
      simp at hg
  unfold getNode addNode
  rw [List.find?_append, hf]
  simp

/-- C6: the id synthesized by add_fallback_node never collides with an
existing node id; the inserted node carries exactly one variant and the
fallback flag, with an edge from the failed node to it; and when the
parent's existing fallback ids are exactly F1..Fk the new id is F(k + 1)
and the updated graph's fallback ids are exactly F1..F(k + 1), so
successive calls generate F1, F2, F3, … strictly increasing with no gaps or
reuse. -/
theorem C6_add_fallback_node (g : PlanGraph) (p : String) :
    hasNode g (add_fallback_node g p).1 = false ∧
    (∃ node, getNode (add_fallback_node g p).2 (add_fallback_node g p).1 =
        some node ∧ node.is_fallback = true ∧ node.variants.length = 1) ∧
    (p, (add_fallback_node g p).1) ∈ (add_fallback_node g p).2.edges ∧
    ∀ k : Nat,
      (∀ m : Nat, 1 ≤ m → (hasNode g (fallbackId p m) = true ↔ m ≤ k)) →
      ((add_fallback_node g p).1 = fallbackId p (k + 1) ∧
        ∀ m : Nat, 1 ≤ m →
          (hasNode (add_fallback_node g p).2 (fallbackId p m) = true ↔
            m ≤ k + 1)) := by
  have hfst : (add_fallback_node g p).1 =
      fallbackId p (chooseFallbackCounter g p) := rfl
  have hsnd : (add_fallback_node g p).2 =
      addEdge (addNode g (fallbackNodeFor g p)) p (add_fallback_node g p).1 := rfl
  have hidx : (fallbackNodeFor g p).index =
      fallbackId p (chooseFallbackCounter g p) := rfl
  have hfree := chooseFallbackCounter_free g p
  refine ⟨?_, ?_, ?_, ?_⟩
  · rw [hfst]
    exact hfree
  · refine ⟨fallbackNodeFor g p, ?_, ?_, ?_⟩
    · rw [hsnd, getNode_addEdge, hfst, ← hidx]
      exact getNode_addNode_self g (fallbackNodeFor g p)
        (by rw [hidx]; exact hfree)
    · rfl
    · rfl
  · rw [hsnd]
    show (p, (add_fallback_node g p).1) ∈
      (addNode g (fallbackNodeFor g p)).edges ++ [(p, (add_fallback_node g p).1)]
    simp
  · intro k hk
    have hc := chooseFallbackCounter_eq g p k hk
    refine ⟨by rw [hfst, hc], ?_⟩
    intro m hm
    rw [hsnd, hasNode_addEdge, hasNode_addNode_iff, hidx, hk m hm, hc]
    constructor
    · rintro (hle | heq)
      · omega
      · have := fallbackId_inj p heq
        omega
    · intro hle
      by_cases hmk : m ≤ k
      · exact Or.inl hmk
      · exact Or.inr (by rw [show m = k + 1 by omega])

/-- Witness for C6: the first fallback synthesized on an empty graph for
parent 1 is 1F1 and collides with nothing. -/
theorem C6_add_fallback_node_witness :
    (∀ m : Nat, 1 ≤ m →
      (hasNode ({} : PlanGraph) (fallbackId "1" m) = true ↔ m ≤ 0)) ∧
    (add_fallback_node {} "1").1 = fallbackId "1" 1 ∧
    fallbackId "1" 1 = "1F1" ∧
    hasNode ({} : PlanGraph) (add_fallback_node {} "1").1 = false := by
  have hk : ∀ m : Nat, 1 ≤ m →
      (hasNode ({} : PlanGraph) (fallbackId "1" m) = true ↔ m ≤ 0) := by
    intro m hm
    constructor
    · intro hb
      simp [hasNode] at hb
    · intro hb
      omega
  have h := C6_add_fallback_node {} "1"
  refine ⟨hk, (h.2.2.2 0 hk).1, ?_, h.1⟩
  show ("1" : String) ++ "F" ++ natRepr 1 = "1F1"
  have h1 : natRepr 1 = "1" := by
    simp [natRepr, digitChar]
  rw [h1]
  rfl

/-- Finding the entry for an id after an in-place node update. -/
theorem find?_map_update (l : List (String × StepNode)) (id : String)
    (f : StepNode → StepNode) :
    (l.map fun p => if p.1 = id then (p.1, f p.2) else p).find?
        (fun p => p.1 = id) =
      (l.find? (fun p => p.1 = id)).map fun p => (p.1, f p.2) := by
  induction l with
  | nil => rfl
  | cons q rest ih =>
      by_cases hq : q.1 = id
      · simp [List.find?_cons, hq]
      · simp [List.find?_cons, hq, ih]

/-- Node lookup after an in-place node update. -/
theorem getNode_updateNode (g : PlanGraph) (id : String)
    (f : StepNode → StepNode) :
    getNode (updateNode g id f) id = (getNode g id).map f := by
  unfold getNode updateNode
  rw [find?_map_update]
  cases g.nodes.find? (fun p => decide (p.1 = id)) <;> rfl

/-- Registration for a known node raises nothing and sets the node's status
to COMPLETED on success and FAILED on failure. -/
theorem register_step_result_ok (cm : ContextManager) (nid : String)
    (success : Bool) (result : Option String)
    (gd : Option (List (String × GVal))) (err : Option String) (n0 : StepNode)
    (h : getNode cm.plan_graph nid = some n0) :
    (register_step_result cm nid success result gd err).2 = none ∧
    nodeStatus (register_step_result cm nid success result gd err).1 nid =
      some (if success then StepStatus.completed else StepStatus.failed) := by
  unfold register_step_result
  rw [h]
  refine ⟨?_, ?_⟩
  · rcases gd with _ | gdl <;> split_ifs <;> rfl
  · rcases gd with _ | gdl
    · simp [nodeStatus, apply_ite ContextManager.plan_graph,
        getNode_updateNode, h]
    · by_cases hgd : gdl.isEmpty <;>
        simp [hgd, nodeStatus, update_globals,
          apply_ite ContextManager.plan_graph, getNode_updateNode, h]

/-- Failing variants thread through the loop of `execute_step`, extending
the tried list and updating the last error. -/
theorem execStepGo_all_fail (node : StepNode) (cm : ContextManager)
    (run : VariantRun) :
    ∀ (vs rest : List CodeVariant) (tried : List String) (le : Option String),
      (∀ u ∈ vs, (run u).1 = false) →
      execStepGo node cm run (vs ++ rest) tried le =
        execStepGo node cm run rest (tried ++ vs.map CodeVariant.name)
          (lastVariantError run vs le) := by
  intro vs
  induction vs with
  | nil =>
      intro rest tried le hall
      simp [lastVariantError]
  | cons v tl ih =>
      intro rest tried le hall
      rcases hrv : run v with ⟨b, res, err⟩
      have hv : b = false := by
        have := hall v (by simp)
        rw [hrv] at this
        exact this
      subst hv
      show execStepGo node cm run (v :: (tl ++ rest)) tried le = _
      simp only [execStepGo, hrv]
      rw [ih rest (tried ++ [v.name]) err
        (fun u hu => hall u (by simp [hu]))]
      have hlast : lastVariantError run (v :: tl) le =
          lastVariantError run tl err := by
        simp [lastVariantError, hrv]
      rw [hlast]
      simp

/-- The last error recorded after a variant list ending in `v` fails is the
error of `v`. -/
theorem lastVariantError_append (run : VariantRun) (l : List CodeVariant)
    (v : CodeVariant) (le : Option String) :
    lastVariantError run (l ++ [v]) le = (run v).2.2 := by
  induction l generalizing le with
  | nil => rfl
  | cons u tl ih => simp [lastVariantError, ih]

/-- C8: execute_step tries variants strictly in declared order; the first
success ends the step as COMPLETED with variants_tried exactly the prefix up
to and including the succeeding variant and variant_succeeded its name, and
later variants are not attempted; only when every variant fails does the
node end FAILED, with all variant names tried and the last error
reported. -/
theorem C8_execute_step (node : StepNode) (cm : ContextManager)
    (run : VariantRun) (n0 : StepNode)
    (hnode : getNode cm.plan_graph node.index = some n0) :
    (∀ pre v post, node.variants = pre ++ v :: post →
      (∀ u ∈ pre, (run u).1 = false) → (run v).1 = true →
      ∃ cm2, execute_step node cm run =
          Except.ok
            ({ status := "success", result := (run v).2.1,
               variants_tried := (pre ++ [v]).map CodeVariant.name,
               variant_succeeded := some v.name,
               node_id := node.index }, cm2) ∧
        nodeStatus cm2 node.index = some .completed) ∧
    (∀ pre v, node.variants = pre ++ [v] →
      (∀ u ∈ node.variants, (run u).1 = false) →
      ∃ cm2, execute_step node cm run =
          Except.ok
            ({ status := "error",
               error := some (pyOr ((run v).2.2) "All variants failed"),
               variants_tried := node.variants.map CodeVariant.name,
               node_id := node.index }, cm2) ∧
        nodeStatus cm2 node.index = some .failed) := by
  constructor
  · intro pre v post hsplit hpre hv
    unfold execute_step
    rw [hsplit, execStepGo_all_fail node cm run pre (v :: post) [] none hpre]
    rcases hrv : run v with ⟨b, res, err⟩
    have hb : b = true := by
      rw [hrv] at hv
      exact hv
    subst hb
    simp only [execStepGo, hrv]
    rcases hreg : register_step_result cm node.index true res
        (some [("last_result", res), ("last_node", some node.index)]) none
      with ⟨cm2, exc⟩
    have hok := register_step_result_ok cm node.index true res
      (some [("last_result", res), ("last_node", some node.index)]) none
      n0 hnode
    rw [hreg] at hok
    have hexc : exc = none := hok.1
    subst hexc
    refine ⟨cm2, ?_, by simpa using hok.2⟩
    simp
  · intro pre v hsplit hall
    have h1 := execStepGo_all_fail node cm run (pre ++ [v]) [] [] none
      (by rw [← hsplit]; exact hall)
    rw [List.append_nil] at h1
    unfold execute_step
    rw [hsplit, h1, lastVariantError_append]
    rcases hreg : register_step_result cm node.index false none none
        ((run v).2.2) with ⟨cm2, exc⟩
    have hok := register_step_result_ok cm node.index false none none
      ((run v).2.2) n0 hnode
    rw [hreg] at hok
    have hexc : exc = none := hok.1
    subst hexc
    simp only [execStepGo, hreg]
    refine ⟨cm2, ?_, by simpa using hok.2⟩
    simp

/-- Witness for C8: scenario C — variants 0A and 0B fail, 0C succeeds; the
step completes via 0C with all three names tried. -/
theorem C8_execute_step_witness :
    (getNode cmScenarioC.plan_graph nodeScenarioC.index = some nodeScenarioC ∧
      nodeScenarioC.variants = [varA, varB] ++ varC :: [] ∧
      (∀ u ∈ [varA, varB], (runScenarioC u).1 = false) ∧
      (runScenarioC varC).1 = true) ∧
    ∃ cm2, execute_step nodeScenarioC cmScenarioC runScenarioC =
        Except.ok
          ({ status := "success", result := (runScenarioC varC).2.1,
             variants_tried := ([varA, varB] ++ [varC]).map CodeVariant.name,
             variant_succeeded := some varC.name,
             node_id := nodeScenarioC.index }, cm2) ∧
      nodeStatus cm2 nodeScenarioC.index = some .completed := by
  refine ⟨⟨rfl, rfl, by decide, by decide⟩, ?_⟩
  exact (C8_execute_step nodeScenarioC cmScenarioC runScenarioC nodeScenarioC
    rfl).1 [varA, varB] varC [] rfl (by decide) (by decide)

end AgentGraph
